import Mathlib

/-!
# jsrt-wrappers: error translation and the checked wrapper calls

A shallow embedding of `src/jsrt_wrappers.cpp`.

* The engine (the `Js...` functions of jsrt.h) is external to the source file.
  It is a parameter: an `Engine σ` gives, for every engine function the source
  calls, the status it returns, the content of its output parameter after the
  call, and the next engine state.
* A wrapper operation runs on a `World σ` (engine state plus the log of engine
  calls made so far) and yields `Except Thrown α × World σ`: either the value
  returned or the object thrown, and the world afterwards.
* `throw X()` is `Thrown.by_value X`; `throw new X()` is `Thrown.by_pointer X`.
-/

namespace jsrt

/-- An engine handle (`JsRef`, `JsValueRef`, `JsContextRef`, ...): an opaque pointer. -/
abbrev JsRef := Nat

/-- The null handle, `nullptr`. -/
def nullptr : JsRef := 0

/-- Status codes, `JsErrorCode` of jsrt.h: one constructor for each enumerator
the switch of `translate_error_code` names, and `unlisted raw` for a value of
the underlying integer that is none of them (what reaches `default:`). -/
inductive JsErrorCode where
  | JsNoError
  | JsErrorInvalidArgument
  | JsErrorNullArgument
  | JsErrorNoCurrentContext
  | JsErrorInExceptionState
  | JsErrorNotImplemented
  | JsErrorWrongThread
  | JsErrorRuntimeInUse
  | JsErrorBadSerializedScript
  | JsErrorInDisabledState
  | JsErrorCannotDisableExecution
  | JsErrorHeapEnumInProgress
  | JsErrorArgumentNotObject
  | JsErrorInProfileCallback
  | JsErrorInThreadServiceCallback
  | JsErrorCannotSerializeDebugScript
  | JsErrorAlreadyDebuggingContext
  | JsErrorAlreadyProfilingContext
  | JsErrorIdleNotEnabled
  | JsErrorOutOfMemory
  | JsErrorScriptException
  | JsErrorScriptCompile
  | JsErrorScriptTerminated
  | JsErrorScriptEvalDisabled
  | JsErrorFatal
  | unlisted (raw : Nat)
  deriving DecidableEq, Repr

/-- The class `value`: a wrapper around one handle. -/
structure value where
  handle : JsRef
  deriving DecidableEq, Repr

/-- The class `compile_error`, constructed from the handle of the exception object. -/
structure compile_error where
  handle : JsRef
  deriving DecidableEq, Repr

/-- The class `context`, a wrapper around a `JsContextRef`. -/
structure context where
  handle : JsRef
  deriving DecidableEq, Repr

/-- The class `runtime`; `_handle` in the source. -/
structure runtime where
  handle : JsRef
  deriving DecidableEq, Repr

/-- The class `function_base`. -/
structure function_base where
  handle : JsRef
  deriving DecidableEq, Repr

/-- The class `boolean`. -/
structure boolean where
  handle : JsRef
  deriving DecidableEq, Repr

/-- The class `number`. -/
structure number where
  handle : JsRef
  deriving DecidableEq, Repr

/-- The class `string`. -/
structure string where
  handle : JsRef
  deriving DecidableEq, Repr

/-- The class `object`. -/
structure object where
  handle : JsRef
  deriving DecidableEq, Repr

/-- The class `property_id`. -/
structure property_id where
  handle : JsRef
  deriving DecidableEq, Repr

/-- The class template `property_descriptor<T>`, constructed from a `value`;
the type argument does not reach the engine and is left out. -/
structure property_descriptor where
  handle : JsRef
  deriving DecidableEq, Repr

/-- Constructor `property_descriptor<T>(value)`. -/
def property_descriptor.of_value (v : value) : property_descriptor :=
  ⟨v.handle⟩

/-- The class template `array<T>` at `std::wstring`, constructed from a handle. -/
structure array where
  handle : JsRef
  deriving DecidableEq, Repr

/-- The exception classes thrown by `translate_error_code`. -/
inductive exception where
  | invalid_argument_exception
  | null_argument_exception
  | no_current_context_exception
  | in_exception_state_exception
  | not_implemented_exception
  | wrong_thread_exception
  | runtime_in_use_exception
  | bad_serialized_script_exception
  | in_disabled_state_exception
  | cannot_disable_execution_exception
  | heap_enum_in_progress_exception
  | argument_not_object_exception
  | in_profile_callback_exception
  | in_thread_service_callback_exception
  | cannot_serialize_debug_script_exception
  | already_debugging_context_exception
  | already_profiling_context_exception
  | idle_not_enabled_exception
  | out_of_memory_exception
  | script_exception (payload : value)
  | script_compile_exception (error : compile_error)
  | script_terminated_exception
  | script_eval_disabled_exception
  | fatal_exception
  deriving DecidableEq, Repr

/-- What a throw-expression throws: `throw X()` throws an object of class `X`,
`throw new X()` throws a pointer to one. A handler `catch (X&)` matches the
first and not the second. -/
inductive Thrown where
  | by_value (e : exception)
  | by_pointer (e : exception)
  deriving DecidableEq, Repr

/-- The engine functions the source calls, in call order of the file. -/
inductive EngineCall where
  | JsGetAndClearException
  | JsCreateContext
  | JsSetException
  | JsParseScript
  | JsRunScript
  | JsParseSerializedScript
  | JsRunSerializedScript
  | JsConvertValueToBoolean
  | JsConvertValueToNumber
  | JsConvertValueToString
  | JsGetOwnPropertyDescriptor
  | JsDefineProperty
  | JsGetOwnPropertyNames
  deriving DecidableEq, Repr

/-- A value of the C++ type `int`. -/
structure CInt where
  val : Int
  lo : -2147483648 ≤ val
  hi : val ≤ 2147483647

/-- The engine, external to the source: for each function, from the arguments
and the engine state, the status returned, the content of the output parameter
after the call (whatever the status), and the next state.

`array_length` and `array_item` stand for `array<std::wstring>::length()` and
`operator[]` of jsrt_wrappers.h (not in the source file), read as queries on
the engine state; `length()` is taken to return `int`, the type of the index
it is compared with. `pending` reads the pending-exception slot of the current
context: the handle of the exception that is pending, if one is. -/
structure Engine (σ : Type) where
  JsCreateContext : JsRef → JsRef → σ → JsErrorCode × JsRef × σ
  JsSetException : JsRef → σ → JsErrorCode × σ
  JsGetAndClearException : σ → JsErrorCode × JsRef × σ
  JsParseScript : String → Nat → String → σ → JsErrorCode × JsRef × σ
  JsRunScript : String → Nat → String → σ → JsErrorCode × JsRef × σ
  JsParseSerializedScript : String → List Nat → Nat → String → σ → JsErrorCode × JsRef × σ
  JsRunSerializedScript : String → List Nat → Nat → String → σ → JsErrorCode × JsRef × σ
  JsConvertValueToBoolean : JsRef → σ → JsErrorCode × JsRef × σ
  JsConvertValueToNumber : JsRef → σ → JsErrorCode × JsRef × σ
  JsConvertValueToString : JsRef → σ → JsErrorCode × JsRef × σ
  JsGetOwnPropertyDescriptor : JsRef → JsRef → σ → JsErrorCode × JsRef × σ
  JsDefineProperty : JsRef → JsRef → JsRef → σ → JsErrorCode × Bool × σ
  JsGetOwnPropertyNames : JsRef → σ → JsErrorCode × JsRef × σ
  array_length : JsRef → σ → CInt
  array_item : JsRef → Int → σ → String
  pending : σ → Option JsRef

/-- The engine state and the engine calls made so far, oldest first. -/
structure World (σ : Type) where
  state : σ
  calls : List EngineCall

/-- One engine call with an output parameter: run it on the state, log it. -/
def World.call {σ α : Type} (w : World σ) (name : EngineCall)
    (f : σ → JsErrorCode × α × σ) : JsErrorCode × α × World σ :=
  ((f w.state).1, (f w.state).2.1, ⟨(f w.state).2.2, w.calls ++ [name]⟩)

/-- One engine call without output parameter: run it on the state, log it. -/
def World.call_void {σ : Type} (w : World σ) (name : EngineCall)
    (f : σ → JsErrorCode × σ) : JsErrorCode × World σ :=
  ((f w.state).1, ⟨(f w.state).2, w.calls ++ [name]⟩)

/-- `JsGetAndClearException(&exception)` made by a wrapper. -/
def JsGetAndClearException {σ : Type} (E : Engine σ) (w : World σ) :
    JsErrorCode × JsRef × World σ :=
  w.call .JsGetAndClearException E.JsGetAndClearException

/-- `runtime::translate_error_code` (lines 20-97). -/
def runtime.translate_error_code {σ : Type} (E : Engine σ) (errorCode : JsErrorCode)
    (w : World σ) : Except Thrown Unit × World σ :=
  match errorCode with
  | .JsNoError => (.ok (), w)
  | .JsErrorInvalidArgument => (.error (.by_value .invalid_argument_exception), w)
  | .JsErrorNullArgument => (.error (.by_value .null_argument_exception), w)
  | .JsErrorNoCurrentContext => (.error (.by_value .no_current_context_exception), w)
  | .JsErrorInExceptionState => (.error (.by_value .in_exception_state_exception), w)
  | .JsErrorNotImplemented => (.error (.by_value .not_implemented_exception), w)
  | .JsErrorWrongThread => (.error (.by_value .wrong_thread_exception), w)
  | .JsErrorRuntimeInUse => (.error (.by_value .runtime_in_use_exception), w)
  | .JsErrorBadSerializedScript => (.error (.by_value .bad_serialized_script_exception), w)
  | .JsErrorInDisabledState => (.error (.by_value .in_disabled_state_exception), w)
  | .JsErrorCannotDisableExecution =>
    (.error (.by_value .cannot_disable_execution_exception), w)
  | .JsErrorHeapEnumInProgress => (.error (.by_value .heap_enum_in_progress_exception), w)
  | .JsErrorArgumentNotObject => (.error (.by_value .argument_not_object_exception), w)
  | .JsErrorInProfileCallback => (.error (.by_value .in_profile_callback_exception), w)
  | .JsErrorInThreadServiceCallback =>
    (.error (.by_value .in_thread_service_callback_exception), w)
  | .JsErrorCannotSerializeDebugScript =>
    (.error (.by_value .cannot_serialize_debug_script_exception), w)
  | .JsErrorAlreadyDebuggingContext =>
    (.error (.by_value .already_debugging_context_exception), w)
  | .JsErrorAlreadyProfilingContext =>
    (.error (.by_value .already_profiling_context_exception), w)
  | .JsErrorIdleNotEnabled => (.error (.by_value .idle_not_enabled_exception), w)
  | .JsErrorOutOfMemory => (.error (.by_value .out_of_memory_exception), w)
  | .JsErrorScriptException =>
    match JsGetAndClearException E w with
    | (status, exception, w1) =>
      if status ≠ .JsNoError then
        -- Something has gone very wrong.
        (.error (.by_pointer .fatal_exception), w1)
      else
        (.error (.by_value (.script_exception (value.mk exception))), w1)
  | .JsErrorScriptCompile =>
    match JsGetAndClearException E w with
    | (status, exception, w1) =>
      if status ≠ .JsNoError then
        -- Something has gone very wrong.
        (.error (.by_pointer .fatal_exception), w1)
      else
        (.error (.by_value (.script_compile_exception (compile_error.mk exception))), w1)
  | .JsErrorScriptTerminated => (.error (.by_value .script_terminated_exception), w)
  | .JsErrorScriptEvalDisabled => (.error (.by_value .script_eval_disabled_exception), w)
  | .JsErrorFatal => (.error (.by_value .fatal_exception), w)
  | _ => (.error (.by_value .fatal_exception), w)

/-- `runtime::create_context` (lines 99-106). -/
def runtime.create_context {σ : Type} (E : Engine σ) (this : runtime) (site : JsRef)
    (w : World σ) : Except Thrown context × World σ :=
  match w.call .JsCreateContext (E.JsCreateContext this.handle site) with
  | (status, newContext, w1) =>
    match runtime.translate_error_code E status w1 with
    | (.error e, w2) => (.error e, w2)
    | (.ok (), w2) => (.ok (context.mk newContext), w2)

/-- `context::set_exception` (lines 108-111). -/
def context.set_exception {σ : Type} (E : Engine σ) (object : value) (w : World σ) :
    Except Thrown Unit × World σ :=
  match w.call_void .JsSetException (E.JsSetException object.handle) with
  | (status, w1) => runtime.translate_error_code E status w1

/-- `context::get_and_clear_exception` (lines 113-118). -/
def context.get_and_clear_exception {σ : Type} (E : Engine σ) (w : World σ) :
    Except Thrown value × World σ :=
  match JsGetAndClearException E w with
  | (status, exception, w1) =>
    match runtime.translate_error_code E status w1 with
    | (.error e, w2) => (.error e, w2)
    | (.ok (), w2) => (.ok (value.mk exception), w2)

/-- `context::parse` (lines 120-127). -/
def context.parse {σ : Type} (E : Engine σ) (script : String) (sourceContext : Nat)
    (sourceUrl : String) (w : World σ) : Except Thrown function_base × World σ :=
  match w.call .JsParseScript (E.JsParseScript script sourceContext sourceUrl) with
  | (status, result, w1) =>
    match runtime.translate_error_code E status w1 with
    | (.error e, w2) => (.error e, w2)
    | (.ok (), w2) => (.ok (function_base.mk result), w2)

/-- `context::evaluate` (lines 129-136). -/
def context.evaluate {σ : Type} (E : Engine σ) (script : String) (sourceContext : Nat)
    (sourceUrl : String) (w : World σ) : Except Thrown value × World σ :=
  match w.call .JsRunScript (E.JsRunScript script sourceContext sourceUrl) with
  | (status, result, w1) =>
    match runtime.translate_error_code E status w1 with
    | (.error e, w2) => (.error e, w2)
    | (.ok (), w2) => (.ok (value.mk result), w2)

/-- `context::parse_serialized` (lines 138-145). -/
def context.parse_serialized {σ : Type} (E : Engine σ) (script : String) (buffer : List Nat)
    (sourceContext : Nat) (sourceUrl : String) (w : World σ) :
    Except Thrown function_base × World σ :=
  match w.call .JsParseSerializedScript
      (E.JsParseSerializedScript script buffer sourceContext sourceUrl) with
  | (status, result, w1) =>
    match runtime.translate_error_code E status w1 with
    | (.error e, w2) => (.error e, w2)
    | (.ok (), w2) => (.ok (function_base.mk result), w2)

/-- `context::evaluate_serialized` (lines 147-154). -/
def context.evaluate_serialized {σ : Type} (E : Engine σ) (script : String)
    (buffer : List Nat) (sourceContext : Nat) (sourceUrl : String) (w : World σ) :
    Except Thrown value × World σ :=
  match w.call .JsRunSerializedScript
      (E.JsRunSerializedScript script buffer sourceContext sourceUrl) with
  | (status, result, w1) =>
    match runtime.translate_error_code E status w1 with
    | (.error e, w2) => (.error e, w2)
    | (.ok (), w2) => (.ok (value.mk result), w2)

/-- `value::to_boolean` (lines 156-161). -/
def value.to_boolean {σ : Type} (E : Engine σ) (this : value) (w : World σ) :
    Except Thrown boolean × World σ :=
  match w.call .JsConvertValueToBoolean (E.JsConvertValueToBoolean this.handle) with
  | (status, booleanValue, w1) =>
    match runtime.translate_error_code E status w1 with
    | (.error e, w2) => (.error e, w2)
    | (.ok (), w2) => (.ok (boolean.mk booleanValue), w2)

/-- `value::to_number` (lines 163-168). -/
def value.to_number {σ : Type} (E : Engine σ) (this : value) (w : World σ) :
    Except Thrown number × World σ :=
  match w.call .JsConvertValueToNumber (E.JsConvertValueToNumber this.handle) with
  | (status, numberValue, w1) =>
    match runtime.translate_error_code E status w1 with
    | (.error e, w2) => (.error e, w2)
    | (.ok (), w2) => (.ok (number.mk numberValue), w2)

/-- `value::to_string` (lines 170-175). -/
def value.to_string {σ : Type} (E : Engine σ) (this : value) (w : World σ) :
    Except Thrown string × World σ :=
  match w.call .JsConvertValueToString (E.JsConvertValueToString this.handle) with
  | (status, stringValue, w1) =>
    match runtime.translate_error_code E status w1 with
    | (.error e, w2) => (.error e, w2)
    | (.ok (), w2) => (.ok (string.mk stringValue), w2)

/-- `object::get_own_property_descriptor` (lines 177-184). -/
def object.get_own_property_descriptor {σ : Type} (E : Engine σ) (this : object)
    (name : property_id) (w : World σ) : Except Thrown property_descriptor × World σ :=
  match w.call .JsGetOwnPropertyDescriptor
      (E.JsGetOwnPropertyDescriptor this.handle name.handle) with
  | (status, valueHandle, w1) =>
    match runtime.translate_error_code E status w1 with
    | (.error e, w2) => (.error e, w2)
    | (.ok (), w2) => (.ok (property_descriptor.of_value (value.mk valueHandle)), w2)

/-- `object::define_property` (lines 186-193). -/
def object.define_property {σ : Type} (E : Engine σ) (this : object) (name : property_id)
    (descriptor : property_descriptor) (w : World σ) : Except Thrown Bool × World σ :=
  match w.call .JsDefineProperty
      (E.JsDefineProperty this.handle name.handle descriptor.handle) with
  | (status, value, w1) =>
    match runtime.translate_error_code E status w1 with
    | (.error e, w2) => (.error e, w2)
    | (.ok (), w2) => (.ok value, w2)

/-- The literal `0` of type `int`. -/
def CInt.zero : CInt := ⟨0, by decide, by decide⟩

/-- `index++` on an `int`, with two's complement wrap-around. -/
def CInt.incr (i : CInt) : CInt :=
  ⟨(i.val + 1 + 2147483648) % 4294967296 - 2147483648, by omega, by omega⟩

/-- The `for` loop of `object::get_own_property_names` (lines 204-207), entered
with the current `index` and `namesVector`; `length()` is read at every test. -/
def object.names_loop {σ : Type} (E : Engine σ) (s : σ) (namesArray : array)
    (index : CInt) (namesVector : List String) : List String :=
  if _h : index.val < (E.array_length namesArray.handle s).val then
    object.names_loop E s namesArray index.incr
      (namesVector ++ [E.array_item namesArray.handle index.val s])
  else
    namesVector
termination_by ((E.array_length namesArray.handle s).val - index.val).toNat
decreasing_by
  have hmax := (E.array_length namesArray.handle s).hi
  simp only [CInt.incr]
  omega

/-- `object::get_own_property_names` (lines 195-210). -/
def object.get_own_property_names {σ : Type} (E : Engine σ) (this : object) (w : World σ) :
    Except Thrown (List String) × World σ :=
  let namesVector : List String := []
  match w.call .JsGetOwnPropertyNames (E.JsGetOwnPropertyNames this.handle) with
  | (status, names, w1) =>
    match runtime.translate_error_code E status w1 with
    | (.error e, w2) => (.error e, w2)
    | (.ok (), w2) =>
      let namesArray := array.mk names
      (.ok (object.names_loop E w2.state namesArray CInt.zero namesVector), w2)

/-- Modelled from the spec: what the engine functions `JsSetException` and
`JsGetAndClearException` (the engine, not part of the source) do to the
pending-exception slot. Section 4.3: set-exception "marks the Context's
pending-exception slot with `value`" when it succeeds, and
get-and-clear-exception "atomically reads and clears the pending-exception
slot; fails if none is pending". -/
structure SlotLaws {σ : Type} (E : Engine σ) : Prop where
  set_marks : ∀ (h : JsRef) (s : σ), (E.JsSetException h s).1 = .JsNoError →
    E.pending (E.JsSetException h s).2 = some h
  take_pending : ∀ (s : σ) (h : JsRef), E.pending s = some h →
    (E.JsGetAndClearException s).1 = .JsNoError ∧
    (E.JsGetAndClearException s).2.1 = h ∧
    E.pending (E.JsGetAndClearException s).2.2 = none
  take_nothing : ∀ (s : σ), E.pending s = none →
    (E.JsGetAndClearException s).1 ≠ .JsNoError

/-- The 21 statuses that `translate_error_code` answers with a plain throw of
the exception class named after them. -/
def simple_statuses : List JsErrorCode :=
  [.JsErrorInvalidArgument, .JsErrorNullArgument, .JsErrorNoCurrentContext,
   .JsErrorInExceptionState, .JsErrorNotImplemented, .JsErrorWrongThread,
   .JsErrorRuntimeInUse, .JsErrorBadSerializedScript, .JsErrorInDisabledState,
   .JsErrorCannotDisableExecution, .JsErrorHeapEnumInProgress, .JsErrorArgumentNotObject,
   .JsErrorInProfileCallback, .JsErrorInThreadServiceCallback,
   .JsErrorCannotSerializeDebugScript, .JsErrorAlreadyDebuggingContext,
   .JsErrorAlreadyProfilingContext, .JsErrorIdleNotEnabled, .JsErrorOutOfMemory,
   .JsErrorScriptTerminated, .JsErrorScriptEvalDisabled]

/-- The array behind handle `h` holds exactly `ns` in state `s`: `length()` is
the length of `ns` and `operator[]` at `i` is element `i` of `ns`. -/
def array_holds {σ : Type} (E : Engine σ) (h : JsRef) (s : σ) (ns : List String) : Prop :=
  (E.array_length h s).val = (ns.length : Int) ∧
  ∀ (i : Nat) (hi : i < ns.length), E.array_item h (i : Int) s = ns.get ⟨i, hi⟩

/-- The outcome of a wrapper operation whose primary engine call returned
`status`, left the world `after_call` and wrote an output that wraps to
`wrapped`: on success the operation returns `wrapped`; on any other status it
returns nothing and throws what the translator makes of `status`. -/
def checked_result {σ α : Type} (E : Engine σ) (status : JsErrorCode)
    (after_call : World σ) (wrapped : α) (result : Except Thrown α) : Prop :=
  (status = .JsNoError ∧ result = .ok wrapped) ∨
  (status ≠ .JsNoError ∧
    ∃ t, (runtime.translate_error_code E status after_call).1 = .error t ∧ result = .error t)

/-- A small engine whose state is the pending-exception slot alone.
Set-exception always succeeds; get-and-clear-exception reports invalid-argument
when nothing is pending; run-script with source context 0 stands for a script
that throws the value 7; run-serialized-script rejects the empty buffer;
define-property reports a conflict on the property id 0; the names array
behind handle 9 is `["a", "b"]`. -/
def slot_engine : Engine (Option JsRef) where
  JsCreateContext := fun _ _ s => (.JsNoError, 1, s)
  JsSetException := fun h _ => (.JsNoError, some h)
  JsGetAndClearException := fun s =>
    match s with
    | some h => (.JsNoError, h, none)
    | none => (.JsErrorInvalidArgument, nullptr, none)
  JsParseScript := fun _ _ _ s => (.JsNoError, 2, s)
  JsRunScript := fun _ sourceContext _ s =>
    if sourceContext = 0 then (.JsErrorScriptException, nullptr, some 7)
    else (.JsNoError, 3, s)
  JsParseSerializedScript := fun _ _ _ _ s => (.JsNoError, 2, s)
  JsRunSerializedScript := fun _ buffer _ _ s =>
    if buffer = [] then (.JsErrorBadSerializedScript, nullptr, s) else (.JsNoError, 3, s)
  JsConvertValueToBoolean := fun _ s => (.JsNoError, 4, s)
  JsConvertValueToNumber := fun _ s => (.JsNoError, 5, s)
  JsConvertValueToString := fun _ s => (.JsNoError, 6, s)
  JsGetOwnPropertyDescriptor := fun _ _ s => (.JsNoError, 8, s)
  JsDefineProperty := fun _ name _ s => (.JsNoError, decide (name ≠ 0), s)
  JsGetOwnPropertyNames := fun _ s => (.JsNoError, 9, s)
  array_length := fun h _ => if h = 9 then ⟨2, by decide, by decide⟩ else CInt.zero
  array_item := fun _ i _ => if i = 0 then "a" else "b"
  pending := fun s => s

/-! ## The translator -/

/-- Script-exception status: one get-and-clear-exception call, then a throw. -/
theorem translate_script_exception_eq {σ : Type} (E : Engine σ) (w : World σ) :
    runtime.translate_error_code E .JsErrorScriptException w =
      if (E.JsGetAndClearException w.state).1 ≠ .JsNoError then
        (.error (.by_pointer .fatal_exception),
          ⟨(E.JsGetAndClearException w.state).2.2, w.calls ++ [.JsGetAndClearException]⟩)
      else
        (.error (.by_value (.script_exception ⟨(E.JsGetAndClearException w.state).2.1⟩)),
          ⟨(E.JsGetAndClearException w.state).2.2, w.calls ++ [.JsGetAndClearException]⟩) :=
  rfl

/-- Script-compile status: one get-and-clear-exception call, then a throw. -/
theorem translate_script_compile_eq {σ : Type} (E : Engine σ) (w : World σ) :
    runtime.translate_error_code E .JsErrorScriptCompile w =
      if (E.JsGetAndClearException w.state).1 ≠ .JsNoError then
        (.error (.by_pointer .fatal_exception),
          ⟨(E.JsGetAndClearException w.state).2.2, w.calls ++ [.JsGetAndClearException]⟩)
      else
        (.error (.by_value
            (.script_compile_exception ⟨(E.JsGetAndClearException w.state).2.1⟩)),
          ⟨(E.JsGetAndClearException w.state).2.2, w.calls ++ [.JsGetAndClearException]⟩) :=
  rfl

/-- The translator throws on every status but success. -/
theorem translate_raises {σ : Type} (E : Engine σ) (c : JsErrorCode) (w : World σ)
    (hc : c ≠ .JsNoError) : ∃ t, (runtime.translate_error_code E c w).1 = .error t := by
  cases c
  case JsNoError => exact absurd rfl hc
  case JsErrorScriptException =>
    rw [translate_script_exception_eq]
    split <;> exact ⟨_, rfl⟩
  case JsErrorScriptCompile =>
    rw [translate_script_compile_eq]
    split <;> exact ⟨_, rfl⟩
  all_goals exact ⟨_, rfl⟩

/-- The translator returns normally only on success. -/
theorem translate_ok {σ : Type} (E : Engine σ) (c : JsErrorCode) (w : World σ)
    (h : (runtime.translate_error_code E c w).1 = .ok ()) : c = .JsNoError := by
  by_cases hc : c = .JsNoError
  · exact hc
  · obtain ⟨t, ht⟩ := translate_raises E c w hc
    rw [h] at ht
    cases ht

/-- Apart from the two script statuses the translator leaves the world as it is. -/
theorem translate_frame {σ : Type} (E : Engine σ) (c : JsErrorCode) (w : World σ)
    (h1 : c ≠ .JsErrorScriptException) (h2 : c ≠ .JsErrorScriptCompile) :
    (runtime.translate_error_code E c w).2 = w := by
  cases c
  case JsErrorScriptException => exact absurd rfl h1
  case JsErrorScriptCompile => exact absurd rfl h2
  all_goals rfl

/-! ## Every wrapper checks the status before it uses the output -/

/-- `create_context` returns the wrapped output on success and otherwise throws what the
translator makes of the status. -/
theorem create_context_checked {σ : Type} (E : Engine σ) (this : runtime) (site : JsRef) (w : World σ) :
    checked_result E ((E.JsCreateContext this.handle site) w.state).1
      (w.call .JsCreateContext (E.JsCreateContext this.handle site)).2.2
      (context.mk ((E.JsCreateContext this.handle site) w.state).2.1)
      (runtime.create_context E this site w).1 := by
  unfold checked_result runtime.create_context
  by_cases h : ((E.JsCreateContext this.handle site) w.state).1 = .JsNoError
  · left
    refine ⟨h, ?_⟩
    simp only [World.call, h]
    rfl
  · right
    obtain ⟨t, ht⟩ := translate_raises E _ (w.call .JsCreateContext (E.JsCreateContext this.handle site)).2.2 h
    refine ⟨h, t, ht, ?_⟩
    simp only [World.call] at ht ⊢
    split
    · next e w2 heq =>
      rw [heq] at ht
      cases ht
      rfl
    · next w2 heq =>
      rw [heq] at ht
      cases ht

/-- `get_and_clear_exception` returns the wrapped output on success and otherwise throws what the
translator makes of the status. -/
theorem get_and_clear_exception_checked {σ : Type} (E : Engine σ) (w : World σ) :
    checked_result E ((E.JsGetAndClearException) w.state).1
      (w.call .JsGetAndClearException (E.JsGetAndClearException)).2.2
      (value.mk ((E.JsGetAndClearException) w.state).2.1)
      (context.get_and_clear_exception E w).1 := by
  unfold checked_result context.get_and_clear_exception JsGetAndClearException
  by_cases h : ((E.JsGetAndClearException) w.state).1 = .JsNoError
  · left
    refine ⟨h, ?_⟩
    simp only [World.call, h]
    rfl
  · right
    obtain ⟨t, ht⟩ := translate_raises E _ (w.call .JsGetAndClearException (E.JsGetAndClearException)).2.2 h
    refine ⟨h, t, ht, ?_⟩
    simp only [World.call] at ht ⊢
    split
    · next e w2 heq =>
      rw [heq] at ht
      cases ht
      rfl
    · next w2 heq =>
      rw [heq] at ht
      cases ht

/-- `parse` returns the wrapped output on success and otherwise throws what the
translator makes of the status. -/
theorem parse_checked {σ : Type} (E : Engine σ) (script : String) (sourceContext : Nat) (sourceUrl : String) (w : World σ) :
    checked_result E ((E.JsParseScript script sourceContext sourceUrl) w.state).1
      (w.call .JsParseScript (E.JsParseScript script sourceContext sourceUrl)).2.2
      (function_base.mk ((E.JsParseScript script sourceContext sourceUrl) w.state).2.1)
      (context.parse E script sourceContext sourceUrl w).1 := by
  unfold checked_result context.parse
  by_cases h : ((E.JsParseScript script sourceContext sourceUrl) w.state).1 = .JsNoError
  · left
    refine ⟨h, ?_⟩
    simp only [World.call, h]
    rfl
  · right
    obtain ⟨t, ht⟩ := translate_raises E _ (w.call .JsParseScript (E.JsParseScript script sourceContext sourceUrl)).2.2 h
    refine ⟨h, t, ht, ?_⟩
    simp only [World.call] at ht ⊢
    split
    · next e w2 heq =>
      rw [heq] at ht
      cases ht
      rfl
    · next w2 heq =>
      rw [heq] at ht
      cases ht

/-- `evaluate` returns the wrapped output on success and otherwise throws what the
translator makes of the status. -/
theorem evaluate_checked {σ : Type} (E : Engine σ) (script : String) (sourceContext : Nat) (sourceUrl : String) (w : World σ) :
    checked_result E ((E.JsRunScript script sourceContext sourceUrl) w.state).1
      (w.call .JsRunScript (E.JsRunScript script sourceContext sourceUrl)).2.2
      (value.mk ((E.JsRunScript script sourceContext sourceUrl) w.state).2.1)
      (context.evaluate E script sourceContext sourceUrl w).1 := by
  unfold checked_result context.evaluate
  by_cases h : ((E.JsRunScript script sourceContext sourceUrl) w.state).1 = .JsNoError
  · left
    refine ⟨h, ?_⟩
    simp only [World.call, h]
    rfl
  · right
    obtain ⟨t, ht⟩ := translate_raises E _ (w.call .JsRunScript (E.JsRunScript script sourceContext sourceUrl)).2.2 h
    refine ⟨h, t, ht, ?_⟩
    simp only [World.call] at ht ⊢
    split
    · next e w2 heq =>
      rw [heq] at ht
      cases ht
      rfl
    · next w2 heq =>
      rw [heq] at ht
      cases ht

/-- `parse_serialized` returns the wrapped output on success and otherwise throws what the
translator makes of the status. -/
theorem parse_serialized_checked {σ : Type} (E : Engine σ) (script : String) (buffer : List Nat) (sourceContext : Nat) (sourceUrl : String) (w : World σ) :
    checked_result E ((E.JsParseSerializedScript script buffer sourceContext sourceUrl) w.state).1
      (w.call .JsParseSerializedScript (E.JsParseSerializedScript script buffer sourceContext sourceUrl)).2.2
      (function_base.mk ((E.JsParseSerializedScript script buffer sourceContext sourceUrl) w.state).2.1)
      (context.parse_serialized E script buffer sourceContext sourceUrl w).1 := by
  unfold checked_result context.parse_serialized
  by_cases h : ((E.JsParseSerializedScript script buffer sourceContext sourceUrl) w.state).1 = .JsNoError
  · left
    refine ⟨h, ?_⟩
    simp only [World.call, h]
    rfl
  · right
    obtain ⟨t, ht⟩ := translate_raises E _ (w.call .JsParseSerializedScript (E.JsParseSerializedScript script buffer sourceContext sourceUrl)).2.2 h
    refine ⟨h, t, ht, ?_⟩
    simp only [World.call] at ht ⊢
    split
    · next e w2 heq =>
      rw [heq] at ht
      cases ht
      rfl
    · next w2 heq =>
      rw [heq] at ht
      cases ht

/-- `evaluate_serialized` returns the wrapped output on success and otherwise throws what the
translator makes of the status. -/
theorem evaluate_serialized_checked {σ : Type} (E : Engine σ) (script : String) (buffer : List Nat) (sourceContext : Nat) (sourceUrl : String) (w : World σ) :
    checked_result E ((E.JsRunSerializedScript script buffer sourceContext sourceUrl) w.state).1
      (w.call .JsRunSerializedScript (E.JsRunSerializedScript script buffer sourceContext sourceUrl)).2.2
      (value.mk ((E.JsRunSerializedScript script buffer sourceContext sourceUrl) w.state).2.1)
      (context.evaluate_serialized E script buffer sourceContext sourceUrl w).1 := by
  unfold checked_result context.evaluate_serialized
  by_cases h : ((E.JsRunSerializedScript script buffer sourceContext sourceUrl) w.state).1 = .JsNoError
  · left
    refine ⟨h, ?_⟩
    simp only [World.call, h]
    rfl
  · right
    obtain ⟨t, ht⟩ := translate_raises E _ (w.call .JsRunSerializedScript (E.JsRunSerializedScript script buffer sourceContext sourceUrl)).2.2 h
    refine ⟨h, t, ht, ?_⟩
    simp only [World.call] at ht ⊢
    split
    · next e w2 heq =>
      rw [heq] at ht
      cases ht
      rfl
    · next w2 heq =>
      rw [heq] at ht
      cases ht

/-- `to_boolean` returns the wrapped output on success and otherwise throws what the
translator makes of the status. -/
theorem to_boolean_checked {σ : Type} (E : Engine σ) (this : value) (w : World σ) :
    checked_result E ((E.JsConvertValueToBoolean this.handle) w.state).1
      (w.call .JsConvertValueToBoolean (E.JsConvertValueToBoolean this.handle)).2.2
      (boolean.mk ((E.JsConvertValueToBoolean this.handle) w.state).2.1)
      (value.to_boolean E this w).1 := by
  unfold checked_result value.to_boolean
  by_cases h : ((E.JsConvertValueToBoolean this.handle) w.state).1 = .JsNoError
  · left
    refine ⟨h, ?_⟩
    simp only [World.call, h]
    rfl
  · right
    obtain ⟨t, ht⟩ := translate_raises E _ (w.call .JsConvertValueToBoolean (E.JsConvertValueToBoolean this.handle)).2.2 h
    refine ⟨h, t, ht, ?_⟩
    simp only [World.call] at ht ⊢
    split
    · next e w2 heq =>
      rw [heq] at ht
      cases ht
      rfl
    · next w2 heq =>
      rw [heq] at ht
      cases ht

/-- `to_number` returns the wrapped output on success and otherwise throws what the
translator makes of the status. -/
theorem to_number_checked {σ : Type} (E : Engine σ) (this : value) (w : World σ) :
    checked_result E ((E.JsConvertValueToNumber this.handle) w.state).1
      (w.call .JsConvertValueToNumber (E.JsConvertValueToNumber this.handle)).2.2
      (number.mk ((E.JsConvertValueToNumber this.handle) w.state).2.1)
      (value.to_number E this w).1 := by
  unfold checked_result value.to_number
  by_cases h : ((E.JsConvertValueToNumber this.handle) w.state).1 = .JsNoError
  · left
    refine ⟨h, ?_⟩
    simp only [World.call, h]
    rfl
  · right
    obtain ⟨t, ht⟩ := translate_raises E _ (w.call .JsConvertValueToNumber (E.JsConvertValueToNumber this.handle)).2.2 h
    refine ⟨h, t, ht, ?_⟩
    simp only [World.call] at ht ⊢
    split
    · next e w2 heq =>
      rw [heq] at ht
      cases ht
      rfl
    · next w2 heq =>
      rw [heq] at ht
      cases ht

/-- `to_string` returns the wrapped output on success and otherwise throws what the
translator makes of the status. -/
theorem to_string_checked {σ : Type} (E : Engine σ) (this : value) (w : World σ) :
    checked_result E ((E.JsConvertValueToString this.handle) w.state).1
      (w.call .JsConvertValueToString (E.JsConvertValueToString this.handle)).2.2
      (string.mk ((E.JsConvertValueToString this.handle) w.state).2.1)
      (value.to_string E this w).1 := by
  unfold checked_result value.to_string
  by_cases h : ((E.JsConvertValueToString this.handle) w.state).1 = .JsNoError
  · left
    refine ⟨h, ?_⟩
    simp only [World.call, h]
    rfl
  · right
    obtain ⟨t, ht⟩ := translate_raises E _ (w.call .JsConvertValueToString (E.JsConvertValueToString this.handle)).2.2 h
    refine ⟨h, t, ht, ?_⟩
    simp only [World.call] at ht ⊢
    split
    · next e w2 heq =>
      rw [heq] at ht
      cases ht
      rfl
    · next w2 heq =>
      rw [heq] at ht
      cases ht

/-- `get_own_property_descriptor` returns the wrapped output on success and otherwise throws what the
translator makes of the status. -/
theorem get_own_property_descriptor_checked {σ : Type} (E : Engine σ) (this : object) (name : property_id) (w : World σ) :
    checked_result E ((E.JsGetOwnPropertyDescriptor this.handle name.handle) w.state).1
      (w.call .JsGetOwnPropertyDescriptor (E.JsGetOwnPropertyDescriptor this.handle name.handle)).2.2
      (property_descriptor.mk ((E.JsGetOwnPropertyDescriptor this.handle name.handle) w.state).2.1)
      (object.get_own_property_descriptor E this name w).1 := by
  unfold checked_result object.get_own_property_descriptor
  by_cases h : ((E.JsGetOwnPropertyDescriptor this.handle name.handle) w.state).1 = .JsNoError
  · left
    refine ⟨h, ?_⟩
    simp only [World.call, h]
    rfl
  · right
    obtain ⟨t, ht⟩ := translate_raises E _ (w.call .JsGetOwnPropertyDescriptor (E.JsGetOwnPropertyDescriptor this.handle name.handle)).2.2 h
    refine ⟨h, t, ht, ?_⟩
    simp only [World.call] at ht ⊢
    split
    · next e w2 heq =>
      rw [heq] at ht
      cases ht
      rfl
    · next w2 heq =>
      rw [heq] at ht
      cases ht

/-- `define_property` returns the wrapped output on success and otherwise throws what the
translator makes of the status. -/
theorem define_property_checked {σ : Type} (E : Engine σ) (this : object) (name : property_id) (descriptor : property_descriptor) (w : World σ) :
    checked_result E ((E.JsDefineProperty this.handle name.handle descriptor.handle) w.state).1
      (w.call .JsDefineProperty (E.JsDefineProperty this.handle name.handle descriptor.handle)).2.2
      ((E.JsDefineProperty this.handle name.handle descriptor.handle) w.state).2.1
      (object.define_property E this name descriptor w).1 := by
  unfold checked_result object.define_property
  by_cases h : ((E.JsDefineProperty this.handle name.handle descriptor.handle) w.state).1 = .JsNoError
  · left
    refine ⟨h, ?_⟩
    simp only [World.call, h]
    rfl
  · right
    obtain ⟨t, ht⟩ := translate_raises E _ (w.call .JsDefineProperty (E.JsDefineProperty this.handle name.handle descriptor.handle)).2.2 h
    refine ⟨h, t, ht, ?_⟩
    simp only [World.call] at ht ⊢
    split
    · next e w2 heq =>
      rw [heq] at ht
      cases ht
      rfl
    · next w2 heq =>
      rw [heq] at ht
      cases ht

/-- `get_own_property_names` returns the wrapped output on success and otherwise throws what the
translator makes of the status. -/
theorem get_own_property_names_checked {σ : Type} (E : Engine σ) (this : object) (w : World σ) :
    checked_result E ((E.JsGetOwnPropertyNames this.handle) w.state).1
      (w.call .JsGetOwnPropertyNames (E.JsGetOwnPropertyNames this.handle)).2.2
      (object.names_loop E ((E.JsGetOwnPropertyNames this.handle) w.state).2.2
        (array.mk ((E.JsGetOwnPropertyNames this.handle) w.state).2.1) CInt.zero [])
      (object.get_own_property_names E this w).1 := by
  unfold checked_result object.get_own_property_names
  by_cases h : ((E.JsGetOwnPropertyNames this.handle) w.state).1 = .JsNoError
  · left
    refine ⟨h, ?_⟩
    simp only [World.call, h]
    rfl
  · right
    obtain ⟨t, ht⟩ := translate_raises E _ (w.call .JsGetOwnPropertyNames (E.JsGetOwnPropertyNames this.handle)).2.2 h
    refine ⟨h, t, ht, ?_⟩
    simp only [World.call] at ht ⊢
    split
    · next e w2 heq =>
      rw [heq] at ht
      cases ht
      rfl
    · next w2 heq =>
      rw [heq] at ht
      cases ht

/-- C1: `translate_error_code` classifies every status other than success and
the two script statuses by throwing: it never returns normally on them; each
of the 21 simple statuses throws the exception class named after it; two
distinct statuses among these 21 and `JsErrorFatal` never throw the same
thing; `JsErrorFatal` and every status outside the listed enumerators throw
`fatal_exception`. -/
theorem translate_error_code_total_classification {σ : Type} (E : Engine σ) (w : World σ) :
    (∀ c : JsErrorCode, c ≠ .JsNoError → c ≠ .JsErrorScriptException →
        c ≠ .JsErrorScriptCompile →
        ∃ t, (runtime.translate_error_code E c w).1 = .error t) ∧
    ((runtime.translate_error_code E .JsErrorInvalidArgument w).1
        = .error (.by_value .invalid_argument_exception) ∧
     (runtime.translate_error_code E .JsErrorNullArgument w).1
        = .error (.by_value .null_argument_exception) ∧
     (runtime.translate_error_code E .JsErrorNoCurrentContext w).1
        = .error (.by_value .no_current_context_exception) ∧
     (runtime.translate_error_code E .JsErrorInExceptionState w).1
        = .error (.by_value .in_exception_state_exception) ∧
     (runtime.translate_error_code E .JsErrorNotImplemented w).1
        = .error (.by_value .not_implemented_exception) ∧
     (runtime.translate_error_code E .JsErrorWrongThread w).1
        = .error (.by_value .wrong_thread_exception) ∧
     (runtime.translate_error_code E .JsErrorRuntimeInUse w).1
        = .error (.by_value .runtime_in_use_exception) ∧
     (runtime.translate_error_code E .JsErrorBadSerializedScript w).1
        = .error (.by_value .bad_serialized_script_exception) ∧
     (runtime.translate_error_code E .JsErrorInDisabledState w).1
        = .error (.by_value .in_disabled_state_exception) ∧
     (runtime.translate_error_code E .JsErrorCannotDisableExecution w).1
        = .error (.by_value .cannot_disable_execution_exception) ∧
     (runtime.translate_error_code E .JsErrorHeapEnumInProgress w).1
        = .error (.by_value .heap_enum_in_progress_exception) ∧
     (runtime.translate_error_code E .JsErrorArgumentNotObject w).1
        = .error (.by_value .argument_not_object_exception) ∧
     (runtime.translate_error_code E .JsErrorInProfileCallback w).1
        = .error (.by_value .in_profile_callback_exception) ∧
     (runtime.translate_error_code E .JsErrorInThreadServiceCallback w).1
        = .error (.by_value .in_thread_service_callback_exception) ∧
     (runtime.translate_error_code E .JsErrorCannotSerializeDebugScript w).1
        = .error (.by_value .cannot_serialize_debug_script_exception) ∧
     (runtime.translate_error_code E .JsErrorAlreadyDebuggingContext w).1
        = .error (.by_value .already_debugging_context_exception) ∧
     (runtime.translate_error_code E .JsErrorAlreadyProfilingContext w).1
        = .error (.by_value .already_profiling_context_exception) ∧
     (runtime.translate_error_code E .JsErrorIdleNotEnabled w).1
        = .error (.by_value .idle_not_enabled_exception) ∧
     (runtime.translate_error_code E .JsErrorOutOfMemory w).1
        = .error (.by_value .out_of_memory_exception) ∧
     (runtime.translate_error_code E .JsErrorScriptTerminated w).1
        = .error (.by_value .script_terminated_exception) ∧
     (runtime.translate_error_code E .JsErrorScriptEvalDisabled w).1
        = .error (.by_value .script_eval_disabled_exception)) ∧
    (∀ c d : JsErrorCode, c ∈ simple_statuses ++ [.JsErrorFatal] →
        d ∈ simple_statuses ++ [.JsErrorFatal] → c ≠ d →
        (runtime.translate_error_code E c w).1 ≠ (runtime.translate_error_code E d w).1) ∧
    (runtime.translate_error_code E .JsErrorFatal w).1 = .error (.by_value .fatal_exception) ∧
    (∀ raw : Nat, (runtime.translate_error_code E (.unlisted raw) w).1
        = .error (.by_value .fatal_exception)) := by
  refine ⟨fun c h0 _ _ => translate_raises E c w h0, ?_, ?_, rfl, fun _ => rfl⟩
  · exact ⟨rfl, rfl, rfl, rfl, rfl, rfl, rfl, rfl, rfl, rfl, rfl, rfl, rfl, rfl, rfl, rfl,
      rfl, rfl, rfl, rfl, rfl⟩
  · intro c d hc hd hcd
    simp only [simple_statuses, List.cons_append, List.nil_append, List.mem_cons,
      List.mem_singleton, List.mem_nil_iff, or_false] at hc hd
    rcases hc with rfl | rfl | rfl | rfl | rfl | rfl | rfl | rfl | rfl | rfl | rfl | rfl |
      rfl | rfl | rfl | rfl | rfl | rfl | rfl | rfl | rfl | rfl <;>
    rcases hd with rfl | rfl | rfl | rfl | rfl | rfl | rfl | rfl | rfl | rfl | rfl | rfl |
      rfl | rfl | rfl | rfl | rfl | rfl | rfl | rfl | rfl | rfl <;>
    first
      | exact absurd rfl hcd
      | (intro h; cases h)

/-- C4: on `JsNoError` the translator returns normally, makes no engine call and
leaves the engine state, the pending-exception slot included, as it was. -/
theorem translate_error_code_success_no_effect {σ : Type} (E : Engine σ) (w : World σ) :
    (runtime.translate_error_code E .JsNoError w).1 = .ok () ∧
    (runtime.translate_error_code E .JsNoError w).2.calls = w.calls ∧
    (runtime.translate_error_code E .JsNoError w).2.state = w.state ∧
    E.pending (runtime.translate_error_code E .JsNoError w).2.state = E.pending w.state :=
  ⟨rfl, rfl, rfl, rfl⟩

/-- C3: on a script-exception or script-compile status the translator makes
exactly one engine call, get-and-clear-exception; when that call succeeds it
throws `script_exception` carrying the retrieved value, respectively
`script_compile_exception` carrying the `compile_error` built from that value;
it never returns normally. -/
theorem translate_error_code_script_statuses {σ : Type} (E : Engine σ) (w : World σ) :
    ((runtime.translate_error_code E .JsErrorScriptException w).2.calls
        = w.calls ++ [.JsGetAndClearException] ∧
     (runtime.translate_error_code E .JsErrorScriptException w).2.state
        = (E.JsGetAndClearException w.state).2.2) ∧
    ((runtime.translate_error_code E .JsErrorScriptCompile w).2.calls
        = w.calls ++ [.JsGetAndClearException] ∧
     (runtime.translate_error_code E .JsErrorScriptCompile w).2.state
        = (E.JsGetAndClearException w.state).2.2) ∧
    ((E.JsGetAndClearException w.state).1 = .JsNoError →
      (runtime.translate_error_code E .JsErrorScriptException w).1
        = .error (.by_value (.script_exception
            (value.mk (E.JsGetAndClearException w.state).2.1))) ∧
      (runtime.translate_error_code E .JsErrorScriptCompile w).1
        = .error (.by_value (.script_compile_exception
            (compile_error.mk (E.JsGetAndClearException w.state).2.1)))) ∧
    (runtime.translate_error_code E .JsErrorScriptException w).1 ≠ .ok () ∧
    (runtime.translate_error_code E .JsErrorScriptCompile w).1 ≠ .ok () := by
  refine ⟨?_, ?_, ?_, ?_, ?_⟩
  · rw [translate_script_exception_eq]
    split <;> exact ⟨rfl, rfl⟩
  · rw [translate_script_compile_eq]
    split <;> exact ⟨rfl, rfl⟩
  · intro hok
    rw [translate_script_exception_eq, translate_script_compile_eq]
    simp only [hok, ne_eq, not_true_eq_false, if_false, and_self]
  · intro h
    exact absurd (translate_ok E _ w h) (by decide)
  · intro h
    exact absurd (translate_ok E _ w h) (by decide)

/-- C3 at a concrete input: with the value 5 pending, both script statuses
retrieve it with one call and throw it. -/
theorem translate_error_code_script_statuses_witness :
    (slot_engine.JsGetAndClearException (some 5)).1 = .JsNoError ∧
    (runtime.translate_error_code slot_engine .JsErrorScriptException ⟨some 5, []⟩).1
      = .error (.by_value (.script_exception (value.mk 5))) ∧
    (runtime.translate_error_code slot_engine .JsErrorScriptCompile ⟨some 5, []⟩).1
      = .error (.by_value (.script_compile_exception (compile_error.mk 5))) ∧
    (runtime.translate_error_code slot_engine .JsErrorScriptException ⟨some 5, []⟩).2.calls
      = [.JsGetAndClearException] :=
  ⟨rfl,
   ((translate_error_code_script_statuses slot_engine ⟨some 5, []⟩).2.2.1 rfl).1,
   ((translate_error_code_script_statuses slot_engine ⟨some 5, []⟩).2.2.1 rfl).2,
   (translate_error_code_script_statuses slot_engine ⟨some 5, []⟩).1.1⟩

/-- When the secondary get-and-clear-exception call fails, whatever status it
returns, the translator throws a pointer to a `fatal_exception` and has made
that one engine call only. -/
theorem translate_secondary_failure {σ : Type} (E : Engine σ) (w : World σ)
    (hfail : (E.JsGetAndClearException w.state).1 ≠ .JsNoError) :
    runtime.translate_error_code E .JsErrorScriptException w
      = (.error (.by_pointer .fatal_exception),
          ⟨(E.JsGetAndClearException w.state).2.2, w.calls ++ [.JsGetAndClearException]⟩) ∧
    runtime.translate_error_code E .JsErrorScriptCompile w
      = (.error (.by_pointer .fatal_exception),
          ⟨(E.JsGetAndClearException w.state).2.2, w.calls ++ [.JsGetAndClearException]⟩) := by
  rw [translate_script_exception_eq, translate_script_compile_eq]
  simp only [hfail, ne_eq, not_false_eq_true, if_true, and_self]

/-- C2, the code at a failing input: nothing is pending, so the secondary
get-and-clear-exception call fails; the translator then throws a pointer to a
`fatal_exception` (`throw new`), which is not what it throws for `JsErrorFatal`
(a `fatal_exception` object), after exactly one engine call. -/
theorem translate_error_code_secondary_failure_not_fatal_kind :
    (slot_engine.JsGetAndClearException none).1 = .JsErrorInvalidArgument ∧
    runtime.translate_error_code slot_engine .JsErrorScriptException ⟨none, []⟩
      = (.error (.by_pointer .fatal_exception), ⟨none, [.JsGetAndClearException]⟩) ∧
    runtime.translate_error_code slot_engine .JsErrorScriptCompile ⟨none, []⟩
      = (.error (.by_pointer .fatal_exception), ⟨none, [.JsGetAndClearException]⟩) ∧
    (runtime.translate_error_code slot_engine .JsErrorFatal ⟨none, []⟩).1
      = .error (.by_value .fatal_exception) ∧
    (runtime.translate_error_code slot_engine .JsErrorScriptException ⟨none, []⟩).1
      ≠ (runtime.translate_error_code slot_engine .JsErrorFatal ⟨none, []⟩).1 ∧
    (runtime.translate_error_code slot_engine .JsErrorScriptCompile ⟨none, []⟩).1
      ≠ (runtime.translate_error_code slot_engine .JsErrorFatal ⟨none, []⟩).1 :=
  ⟨rfl, rfl, rfl, rfl, (fun h => by cases h), (fun h => by cases h)⟩

/-- C10: when run-serialized-script returns the bad-serialized-script status,
`evaluate_serialized` throws `bad_serialized_script_exception` and the world is
the one the engine call left (no further call, same state, same pending slot);
for every status other than the two script statuses the translator leaves the
world, hence the pending slot, as it was, and for those two it makes the one
get-and-clear-exception call. -/
theorem translate_error_code_frame {σ : Type} (E : Engine σ) (w : World σ) :
    (∀ (script : String) (buffer : List Nat) (sourceContext : Nat) (sourceUrl : String),
      (E.JsRunSerializedScript script buffer sourceContext sourceUrl w.state).1
          = .JsErrorBadSerializedScript →
        (context.evaluate_serialized E script buffer sourceContext sourceUrl w).1
          = .error (.by_value .bad_serialized_script_exception) ∧
        (context.evaluate_serialized E script buffer sourceContext sourceUrl w).2.calls
          = w.calls ++ [.JsRunSerializedScript] ∧
        (context.evaluate_serialized E script buffer sourceContext sourceUrl w).2.state
          = (E.JsRunSerializedScript script buffer sourceContext sourceUrl w.state).2.2 ∧
        E.pending (context.evaluate_serialized E script buffer sourceContext sourceUrl w).2.state
          = E.pending
              (E.JsRunSerializedScript script buffer sourceContext sourceUrl w.state).2.2) ∧
    (∀ c : JsErrorCode, c ≠ .JsErrorScriptException → c ≠ .JsErrorScriptCompile →
      (runtime.translate_error_code E c w).2.calls = w.calls ∧
      (runtime.translate_error_code E c w).2.state = w.state ∧
      E.pending (runtime.translate_error_code E c w).2.state = E.pending w.state) ∧
    (runtime.translate_error_code E .JsErrorScriptException w).2.calls
      = w.calls ++ [.JsGetAndClearException] ∧
    (runtime.translate_error_code E .JsErrorScriptCompile w).2.calls
      = w.calls ++ [.JsGetAndClearException] := by
  refine ⟨?_, ?_, ?_, ?_⟩
  · intro script buffer sourceContext sourceUrl h
    unfold context.evaluate_serialized
    simp only [World.call, h]
    exact ⟨rfl, rfl, rfl, rfl⟩
  · intro c h1 h2
    rw [translate_frame E c w h1 h2]
    exact ⟨rfl, rfl, rfl⟩
  · rw [translate_script_exception_eq]
    split <;> rfl
  · rw [translate_script_compile_eq]
    split <;> rfl

/-- C10 at a concrete input: the empty buffer is rejected, `evaluate_serialized`
throws the bad-serialized-script exception and the pending value 4 stays. -/
theorem translate_error_code_frame_witness :
    (slot_engine.JsRunSerializedScript "f()" [] 1 "a.js" (some 4)).1
      = .JsErrorBadSerializedScript ∧
    (context.evaluate_serialized slot_engine "f()" [] 1 "a.js" ⟨some 4, []⟩).1
      = .error (.by_value .bad_serialized_script_exception) ∧
    slot_engine.pending
        (context.evaluate_serialized slot_engine "f()" [] 1 "a.js" ⟨some 4, []⟩).2.state
      = some 4 :=
  ⟨rfl,
   ((translate_error_code_frame slot_engine ⟨some 4, []⟩).1 "f()" [] 1 "a.js" rfl).1,
   ((translate_error_code_frame slot_engine ⟨some 4, []⟩).1 "f()" [] 1 "a.js" rfl).2.2.2⟩

/-! ## Property reflection -/

/-- C5: `define_property` returns a boolean exactly when the engine's
define-property call returns success, and the boolean is the flag the engine
wrote; it throws (what the translator makes of the status) exactly when the
status is not success. The engine reports the non-configurable conflict by a
successful call whose flag is false, so `false` is returned exactly then. -/
theorem define_property_false_iff_conflict {σ : Type} (E : Engine σ) (this : object)
    (name : property_id) (descriptor : property_descriptor) (w : World σ) :
    checked_result E
      (E.JsDefineProperty this.handle name.handle descriptor.handle w.state).1
      (w.call .JsDefineProperty
        (E.JsDefineProperty this.handle name.handle descriptor.handle)).2.2
      (E.JsDefineProperty this.handle name.handle descriptor.handle w.state).2.1
      (object.define_property E this name descriptor w).1 ∧
    (∀ b : Bool, (object.define_property E this name descriptor w).1 = .ok b ↔
      ((E.JsDefineProperty this.handle name.handle descriptor.handle w.state).1 = .JsNoError ∧
       (E.JsDefineProperty this.handle name.handle descriptor.handle w.state).2.1 = b)) ∧
    ((object.define_property E this name descriptor w).1 = .ok false ↔
      ((E.JsDefineProperty this.handle name.handle descriptor.handle w.state).1 = .JsNoError ∧
       (E.JsDefineProperty this.handle name.handle descriptor.handle w.state).2.1 = false)) ∧
    ((∃ t, (object.define_property E this name descriptor w).1 = .error t) ↔
      (E.JsDefineProperty this.handle name.handle descriptor.handle w.state).1 ≠ .JsNoError) ∧
    ((∃ b, (object.define_property E this name descriptor w).1 = .ok b) ↔
      ¬ ∃ t, (object.define_property E this name descriptor w).1 = .error t) := by
  have hc := define_property_checked E this name descriptor w
  have hb : ∀ b : Bool, (object.define_property E this name descriptor w).1 = .ok b ↔
      ((E.JsDefineProperty this.handle name.handle descriptor.handle w.state).1 = .JsNoError ∧
       (E.JsDefineProperty this.handle name.handle descriptor.handle w.state).2.1 = b) := by
    intro b
    rcases hc with ⟨hs, hr⟩ | ⟨hs, t, _, hr⟩
    · rw [hr]
      constructor
      · intro h
        cases h
        exact ⟨hs, rfl⟩
      · rintro ⟨_, rfl⟩
        rfl
    · rw [hr]
      constructor
      · intro h
        cases h
      · rintro ⟨h, _⟩
        exact absurd h hs
  refine ⟨hc, hb, hb false, ?_, ?_⟩
  · rcases hc with ⟨hs, hr⟩ | ⟨hs, t, _, hr⟩
    · rw [hr]
      constructor
      · rintro ⟨t, h⟩
        cases h
      · intro h
        exact absurd hs h
    · exact ⟨fun _ => hs, fun _ => ⟨t, hr⟩⟩
  · rcases hc with ⟨_, hr⟩ | ⟨_, t, _, hr⟩
    · rw [hr]
      constructor
      · rintro _ ⟨t, h⟩
        cases h
      · intro _
        exact ⟨_, rfl⟩
    · rw [hr]
      constructor
      · rintro ⟨b, h⟩
        cases h
      · intro h
        exact absurd ⟨t, rfl⟩ h

/-- C5 at concrete inputs: a conflict reported on property id 0 gives `false`,
no conflict on property id 1 gives `true`. -/
theorem define_property_false_iff_conflict_witness :
    (slot_engine.JsDefineProperty 1 0 3 none).1 = .JsNoError ∧
    (slot_engine.JsDefineProperty 1 0 3 none).2.1 = false ∧
    (object.define_property slot_engine ⟨1⟩ ⟨0⟩ ⟨3⟩ ⟨none, []⟩).1 = .ok false ∧
    (object.define_property slot_engine ⟨1⟩ ⟨1⟩ ⟨3⟩ ⟨none, []⟩).1 = .ok true :=
  ⟨rfl, rfl,
   ((define_property_false_iff_conflict slot_engine ⟨1⟩ ⟨0⟩ ⟨3⟩ ⟨none, []⟩).2.2.1).2 ⟨rfl, rfl⟩,
   ((define_property_false_iff_conflict slot_engine ⟨1⟩ ⟨1⟩ ⟨3⟩ ⟨none, []⟩).2.1 true).2
     ⟨rfl, rfl⟩⟩

/-- From index `k` on, the loop appends the elements `k, k+1, ...` of the array. -/
theorem names_loop_from {σ : Type} (E : Engine σ) (s : σ) (namesArray : array)
    (ns : List String) (harr : array_holds E namesArray.handle s ns) :
    ∀ (n : Nat) (index : CInt) (k : Nat) (namesVector : List String),
      index.val = (k : Int) → k ≤ ns.length → ns.length - k = n →
      object.names_loop E s namesArray index namesVector = namesVector ++ ns.drop k := by
  intro n
  induction n with
  | zero =>
    intro index k namesVector hk hle hn
    have hkl : k = ns.length := by omega
    rw [object.names_loop]
    have hnot : ¬ index.val < (E.array_length namesArray.handle s).val := by
      rw [harr.1, hk]
      omega
    rw [dif_neg hnot, hkl, List.drop_length, List.append_nil]
  | succ n ih =>
    intro index k namesVector hk hle hn
    have hlt : k < ns.length := by omega
    have hmax := (E.array_length namesArray.handle s).hi
    rw [harr.1] at hmax
    rw [object.names_loop]
    have hpos : index.val < (E.array_length namesArray.handle s).val := by
      rw [harr.1, hk]
      omega
    have hincr : index.incr.val = ((k + 1 : Nat) : Int) := by
      simp only [CInt.incr]
      omega
    rw [dif_pos hpos, ih index.incr (k + 1) _ hincr (by omega) (by omega), hk, harr.2 k hlt,
      List.append_assoc, List.singleton_append, List.get_eq_getElem,
      ← List.drop_eq_getElem_cons hlt]

/-- C6: when the engine's get-own-property-names call succeeds and the array
behind the handle it wrote holds `ns`, the loop terminates and
`get_own_property_names` returns exactly `ns`: same length, same element at
every index, nothing dropped, added, merged or reordered. -/
theorem get_own_property_names_preserves {σ : Type} (E : Engine σ) (this : object)
    (w : World σ) (ns : List String)
    (hok : (E.JsGetOwnPropertyNames this.handle w.state).1 = .JsNoError)
    (harr : array_holds E (E.JsGetOwnPropertyNames this.handle w.state).2.1
      (E.JsGetOwnPropertyNames this.handle w.state).2.2 ns) :
    (object.get_own_property_names E this w).1 = .ok ns := by
  rcases get_own_property_names_checked E this w with ⟨_, hr⟩ | ⟨hs, _⟩
  · rw [hr]
    have h := names_loop_from E (E.JsGetOwnPropertyNames this.handle w.state).2.2
      (array.mk (E.JsGetOwnPropertyNames this.handle w.state).2.1) ns harr
      ns.length CInt.zero 0 [] rfl (Nat.zero_le _) rfl
    rw [h]
    rfl
  · exact absurd hok hs

/-- The array behind handle 9 of `slot_engine` holds `["a", "b"]`. -/
theorem slot_engine_names_array (s : Option JsRef) :
    array_holds slot_engine 9 s ["a", "b"] := by
  refine ⟨rfl, ?_⟩
  intro i hi
  match i, hi with
  | 0, _ => rfl
  | 1, _ => rfl

/-- C6 at a concrete input: the two names come back in order. -/
theorem get_own_property_names_preserves_witness :
    (slot_engine.JsGetOwnPropertyNames 0 none).1 = .JsNoError ∧
    array_holds slot_engine (slot_engine.JsGetOwnPropertyNames 0 none).2.1
      (slot_engine.JsGetOwnPropertyNames 0 none).2.2 ["a", "b"] ∧
    (object.get_own_property_names slot_engine ⟨0⟩ ⟨none, []⟩).1 = .ok ["a", "b"] :=
  ⟨rfl, slot_engine_names_array none,
   get_own_property_names_preserves slot_engine ⟨0⟩ ⟨none, []⟩ ["a", "b"] rfl
     (slot_engine_names_array none)⟩

/-! ## The pending-exception slot -/

/-- The sample engine keeps the slot laws. -/
theorem slot_engine_laws : SlotLaws slot_engine := by
  refine ⟨fun _ _ _ => rfl, ?_, ?_⟩
  · intro s h hs
    have hs2 : s = some h := hs
    subst hs2
    exact ⟨rfl, rfl, rfl⟩
  · intro s hs
    have hs2 : s = none := hs
    subst hs2
    intro h
    cases h

/-- A successful get-and-clear-exception call: the wrapper returns the value
retrieved and the world is the one that call left. -/
theorem get_and_clear_exception_success {σ : Type} (E : Engine σ) (w : World σ)
    (h : (E.JsGetAndClearException w.state).1 = .JsNoError) :
    context.get_and_clear_exception E w
      = (.ok (value.mk (E.JsGetAndClearException w.state).2.1),
          ⟨(E.JsGetAndClearException w.state).2.2, w.calls ++ [.JsGetAndClearException]⟩) := by
  unfold context.get_and_clear_exception JsGetAndClearException
  simp only [World.call, h]
  rfl

/-- A successful `set_exception`: the engine call succeeded and the world is the
one that call left. -/
theorem set_exception_success {σ : Type} (E : Engine σ) (v : value) (w : World σ)
    (h : (context.set_exception E v w).1 = .ok ()) :
    (E.JsSetException v.handle w.state).1 = .JsNoError ∧
    (context.set_exception E v w).2
      = ⟨(E.JsSetException v.handle w.state).2, w.calls ++ [.JsSetException]⟩ := by
  have hst : (E.JsSetException v.handle w.state).1 = .JsNoError :=
    translate_ok E (E.JsSetException v.handle w.state).1
      ⟨(E.JsSetException v.handle w.state).2, w.calls ++ [EngineCall.JsSetException]⟩ h
  refine ⟨hst, ?_⟩
  unfold context.set_exception
  simp only [World.call_void, hst]
  rfl

/-- A script-exception status from run-script whose pending value can be
retrieved: `evaluate` throws that value, after the two engine calls. -/
theorem evaluate_script_exception_eq {σ : Type} (E : Engine σ) (script : String)
    (sourceContext : Nat) (sourceUrl : String) (w : World σ)
    (hrun : (E.JsRunScript script sourceContext sourceUrl w.state).1 = .JsErrorScriptException)
    (hget : (E.JsGetAndClearException
      (E.JsRunScript script sourceContext sourceUrl w.state).2.2).1 = .JsNoError) :
    context.evaluate E script sourceContext sourceUrl w
      = (.error (.by_value (.script_exception (value.mk (E.JsGetAndClearException
            (E.JsRunScript script sourceContext sourceUrl w.state).2.2).2.1))),
          ⟨(E.JsGetAndClearException
              (E.JsRunScript script sourceContext sourceUrl w.state).2.2).2.2,
            (w.calls ++ [.JsRunScript]) ++ [.JsGetAndClearException]⟩) := by
  unfold context.evaluate
  simp only [World.call, hrun, translate_script_exception_eq, hget, ne_eq, not_true_eq_false,
    if_false]

/-- C7: for every engine that keeps the slot laws, every value `v` and every
world in which `set_exception(v)` succeeds, `get_and_clear_exception` called
next returns a value with the handle of `v`, and the pending slot is empty
afterwards. -/
theorem set_then_get_and_clear_roundtrip {σ : Type} (E : Engine σ) (hE : SlotLaws E)
    (v : value) (w : World σ) (hset : (context.set_exception E v w).1 = .ok ()) :
    ∃ r : value,
      (context.get_and_clear_exception E (context.set_exception E v w).2).1 = .ok r ∧
      r.handle = v.handle ∧
      E.pending (context.get_and_clear_exception E (context.set_exception E v w).2).2.state
        = none := by
  obtain ⟨hst, hw⟩ := set_exception_success E v w hset
  have hp := hE.set_marks v.handle w.state hst
  obtain ⟨h1, h2, h3⟩ := hE.take_pending _ _ hp
  rw [hw, get_and_clear_exception_success E _ h1]
  exact ⟨_, rfl, h2, h3⟩

/-- C7 at a concrete input: set the value 5, take it back, nothing is pending. -/
theorem set_then_get_and_clear_roundtrip_witness :
    (context.set_exception slot_engine ⟨5⟩ ⟨none, []⟩).1 = .ok () ∧
    ∃ r : value,
      (context.get_and_clear_exception slot_engine
        (context.set_exception slot_engine ⟨5⟩ ⟨none, []⟩).2).1 = .ok r ∧
      r.handle = 5 ∧
      slot_engine.pending (context.get_and_clear_exception slot_engine
        (context.set_exception slot_engine ⟨5⟩ ⟨none, []⟩).2).2.state = none :=
  ⟨rfl, set_then_get_and_clear_roundtrip slot_engine slot_engine_laws ⟨5⟩ ⟨none, []⟩ rfl⟩

/-- C8: for every engine that keeps the slot laws, when the run-script call of
`evaluate` returns the script-exception status and leaves the value `t`
pending, `evaluate` throws `script_exception` wrapping `t`, the pending slot is
empty in the world `evaluate` leaves, and `get_and_clear_exception` called next
returns no value: the engine call fails and the wrapper throws what the
translator makes of its status. -/
theorem evaluate_script_exception_consumes_pending {σ : Type} (E : Engine σ)
    (hE : SlotLaws E) (script : String) (sourceContext : Nat) (sourceUrl : String)
    (w : World σ) (t : JsRef)
    (hrun : (E.JsRunScript script sourceContext sourceUrl w.state).1 = .JsErrorScriptException)
    (hpend : E.pending (E.JsRunScript script sourceContext sourceUrl w.state).2.2 = some t) :
    (context.evaluate E script sourceContext sourceUrl w).1
      = .error (.by_value (.script_exception (value.mk t))) ∧
    E.pending (context.evaluate E script sourceContext sourceUrl w).2.state = none ∧
    (E.JsGetAndClearException
      (context.evaluate E script sourceContext sourceUrl w).2.state).1 ≠ .JsNoError ∧
    ∃ thrown,
      (runtime.translate_error_code E
        (E.JsGetAndClearException
          (context.evaluate E script sourceContext sourceUrl w).2.state).1
        (JsGetAndClearException E
          (context.evaluate E script sourceContext sourceUrl w).2).2.2).1 = .error thrown ∧
      (context.get_and_clear_exception E
        (context.evaluate E script sourceContext sourceUrl w).2).1 = .error thrown := by
  obtain ⟨h1, h2, h3⟩ := hE.take_pending _ _ hpend
  have hev := evaluate_script_exception_eq E script sourceContext sourceUrl w hrun h1
  have hnone : E.pending (context.evaluate E script sourceContext sourceUrl w).2.state
      = none := by
    rw [hev]
    exact h3
  have hfail := hE.take_nothing _ hnone
  refine ⟨?_, hnone, hfail, ?_⟩
  · rw [hev, h2]
  · rcases get_and_clear_exception_checked E
        (context.evaluate E script sourceContext sourceUrl w).2 with ⟨hs, _⟩ | ⟨_, thrown, ht, hr⟩
    · exact absurd hs hfail
    · exact ⟨thrown, ht, hr⟩

/-- C8 at a concrete input: the script throws 7; `evaluate` throws it, nothing is
pending afterwards, and the next `get_and_clear_exception` throws. -/
theorem evaluate_script_exception_consumes_pending_witness :
    (slot_engine.JsRunScript "throw 7" 0 "a.js" none).1 = .JsErrorScriptException ∧
    slot_engine.pending (slot_engine.JsRunScript "throw 7" 0 "a.js" none).2.2 = some 7 ∧
    (context.evaluate slot_engine "throw 7" 0 "a.js" ⟨none, []⟩).1
      = .error (.by_value (.script_exception (value.mk 7))) ∧
    slot_engine.pending (context.evaluate slot_engine "throw 7" 0 "a.js" ⟨none, []⟩).2.state
      = none ∧
    (context.get_and_clear_exception slot_engine
      (context.evaluate slot_engine "throw 7" 0 "a.js" ⟨none, []⟩).2).1
      = .error (.by_value .invalid_argument_exception) :=
  ⟨rfl, rfl,
   (evaluate_script_exception_consumes_pending slot_engine slot_engine_laws
      "throw 7" 0 "a.js" ⟨none, []⟩ 7 rfl rfl).1,
   (evaluate_script_exception_consumes_pending slot_engine slot_engine_laws
      "throw 7" 0 "a.js" ⟨none, []⟩ 7 rfl rfl).2.1,
   rfl⟩

/-! ## All wrappers -/

/-- C9: each of the twelve wrapper operations with an output parameter returns,
when its primary engine call succeeds, exactly the wrapper of the handle (or
the boolean) that call wrote, and on any other status returns nothing and
throws what the translator makes of the status, whatever the output parameter
holds. For `get_own_property_names` the value returned on success is the
content of the array behind the handle written: whenever that array holds
`ns`, the result is `ns`. -/
theorem wrappers_check_status_before_output {σ : Type} (E : Engine σ) (w : World σ)
    (rt : runtime) (site : JsRef) (script : String) (buffer : List Nat)
    (sourceContext : Nat) (sourceUrl : String) (v : value) (o : object)
    (name : property_id) (descriptor : property_descriptor) :
    checked_result E (E.JsCreateContext rt.handle site w.state).1
      (w.call .JsCreateContext (E.JsCreateContext rt.handle site)).2.2
      (context.mk (E.JsCreateContext rt.handle site w.state).2.1)
      (runtime.create_context E rt site w).1 ∧
    checked_result E (E.JsGetAndClearException w.state).1
      (w.call .JsGetAndClearException E.JsGetAndClearException).2.2
      (value.mk (E.JsGetAndClearException w.state).2.1)
      (context.get_and_clear_exception E w).1 ∧
    checked_result E (E.JsParseScript script sourceContext sourceUrl w.state).1
      (w.call .JsParseScript (E.JsParseScript script sourceContext sourceUrl)).2.2
      (function_base.mk (E.JsParseScript script sourceContext sourceUrl w.state).2.1)
      (context.parse E script sourceContext sourceUrl w).1 ∧
    checked_result E (E.JsRunScript script sourceContext sourceUrl w.state).1
      (w.call .JsRunScript (E.JsRunScript script sourceContext sourceUrl)).2.2
      (value.mk (E.JsRunScript script sourceContext sourceUrl w.state).2.1)
      (context.evaluate E script sourceContext sourceUrl w).1 ∧
    checked_result E
      (E.JsParseSerializedScript script buffer sourceContext sourceUrl w.state).1
      (w.call .JsParseSerializedScript
        (E.JsParseSerializedScript script buffer sourceContext sourceUrl)).2.2
      (function_base.mk
        (E.JsParseSerializedScript script buffer sourceContext sourceUrl w.state).2.1)
      (context.parse_serialized E script buffer sourceContext sourceUrl w).1 ∧
    checked_result E
      (E.JsRunSerializedScript script buffer sourceContext sourceUrl w.state).1
      (w.call .JsRunSerializedScript
        (E.JsRunSerializedScript script buffer sourceContext sourceUrl)).2.2
      (value.mk (E.JsRunSerializedScript script buffer sourceContext sourceUrl w.state).2.1)
      (context.evaluate_serialized E script buffer sourceContext sourceUrl w).1 ∧
    checked_result E (E.JsConvertValueToBoolean v.handle w.state).1
      (w.call .JsConvertValueToBoolean (E.JsConvertValueToBoolean v.handle)).2.2
      (boolean.mk (E.JsConvertValueToBoolean v.handle w.state).2.1)
      (value.to_boolean E v w).1 ∧
    checked_result E (E.JsConvertValueToNumber v.handle w.state).1
      (w.call .JsConvertValueToNumber (E.JsConvertValueToNumber v.handle)).2.2
      (number.mk (E.JsConvertValueToNumber v.handle w.state).2.1)
      (value.to_number E v w).1 ∧
    checked_result E (E.JsConvertValueToString v.handle w.state).1
      (w.call .JsConvertValueToString (E.JsConvertValueToString v.handle)).2.2
      (string.mk (E.JsConvertValueToString v.handle w.state).2.1)
      (value.to_string E v w).1 ∧
    checked_result E (E.JsGetOwnPropertyDescriptor o.handle name.handle w.state).1
      (w.call .JsGetOwnPropertyDescriptor
        (E.JsGetOwnPropertyDescriptor o.handle name.handle)).2.2
      (property_descriptor.mk (E.JsGetOwnPropertyDescriptor o.handle name.handle w.state).2.1)
      (object.get_own_property_descriptor E o name w).1 ∧
    checked_result E (E.JsDefineProperty o.handle name.handle descriptor.handle w.state).1
      (w.call .JsDefineProperty
        (E.JsDefineProperty o.handle name.handle descriptor.handle)).2.2
      (E.JsDefineProperty o.handle name.handle descriptor.handle w.state).2.1
      (object.define_property E o name descriptor w).1 ∧
    (((E.JsGetOwnPropertyNames o.handle w.state).1 = .JsNoError ∧
      (∃ r, (object.get_own_property_names E o w).1 = .ok r) ∧
      ∀ ns : List String,
        array_holds E (E.JsGetOwnPropertyNames o.handle w.state).2.1
          (E.JsGetOwnPropertyNames o.handle w.state).2.2 ns →
        (object.get_own_property_names E o w).1 = .ok ns) ∨
     ((E.JsGetOwnPropertyNames o.handle w.state).1 ≠ .JsNoError ∧
      ∃ t,
        (runtime.translate_error_code E (E.JsGetOwnPropertyNames o.handle w.state).1
          (w.call .JsGetOwnPropertyNames (E.JsGetOwnPropertyNames o.handle)).2.2).1
            = .error t ∧
        (object.get_own_property_names E o w).1 = .error t)) := by
  refine ⟨create_context_checked E rt site w,
    get_and_clear_exception_checked E w,
    parse_checked E script sourceContext sourceUrl w,
    evaluate_checked E script sourceContext sourceUrl w,
    parse_serialized_checked E script buffer sourceContext sourceUrl w,
    evaluate_serialized_checked E script buffer sourceContext sourceUrl w,
    to_boolean_checked E v w,
    to_number_checked E v w,
    to_string_checked E v w,
    get_own_property_descriptor_checked E o name w,
    define_property_checked E o name descriptor w, ?_⟩
  rcases get_own_property_names_checked E o w with ⟨hs, hr⟩ | ⟨hs, t, ht, hr⟩
  · left
    refine ⟨hs, ⟨_, hr⟩, ?_⟩
    intro ns harr
    rw [hr, names_loop_from E (E.JsGetOwnPropertyNames o.handle w.state).2.2
      (array.mk (E.JsGetOwnPropertyNames o.handle w.state).2.1) ns harr
      ns.length CInt.zero 0 [] rfl (Nat.zero_le _) rfl]
    rfl
  · right
    exact ⟨hs, t, ht, hr⟩

/-- C9 at a concrete input: the descriptor returned wraps the handle 8 the
engine wrote, and the names returned are the two the array behind the written
handle 9 holds. -/
theorem wrappers_check_status_before_output_witness :
    (slot_engine.JsGetOwnPropertyDescriptor 1 2 none).1 = .JsNoError ∧
    (slot_engine.JsGetOwnPropertyDescriptor 1 2 none).2.1 = 8 ∧
    (object.get_own_property_descriptor slot_engine ⟨1⟩ ⟨2⟩ ⟨none, []⟩).1
      = .ok (property_descriptor.mk 8) ∧
    (slot_engine.JsGetOwnPropertyNames 1 none).1 = .JsNoError ∧
    (object.get_own_property_names slot_engine ⟨1⟩ ⟨none, []⟩).1 = .ok ["a", "b"] :=
  ⟨rfl, rfl,
   ((wrappers_check_status_before_output slot_engine ⟨none, []⟩ ⟨0⟩ 0 "" [] 1 "" ⟨0⟩ ⟨1⟩ ⟨2⟩
      ⟨3⟩).2.2.2.2.2.2.2.2.2.1).elim (fun h => h.2) (fun h => absurd rfl h.1),
   rfl,
   ((wrappers_check_status_before_output slot_engine ⟨none, []⟩ ⟨0⟩ 0 "" [] 1 "" ⟨0⟩ ⟨1⟩ ⟨2⟩
      ⟨3⟩).2.2.2.2.2.2.2.2.2.2.2).elim
     (fun h => h.2.2 ["a", "b"] (slot_engine_names_array none))
     (fun h => absurd rfl h.1)⟩

end jsrt
